import Mathlib

/-!
Verification of the CactiveNetwork Hypixel API client (Rust, two revisions:
`src/lib.rs` with a generic envelope decoder, `src/main.rs` with per-endpoint
duplicated decode logic) against its natural-language specification.

The embedding translates the source faithfully:
- value records (`APIError`, `InternalError`, the `APIData` envelope and the
  payload shapes) become Lean structures;
- the `From` conversions and `map_errors` become pure functions; the Rust
  `.unwrap()` panic on a contradictory envelope is made explicit as the
  `DecodeResult.fatal` outcome;
- the single HTTP GET an operation performs is modelled by feeding the
  operation the outcome of that one transport interaction (`Transport`):
  either the connection failed with an error message, or a response body
  arrived whose JSON parse result is an `Except`;
- the URL builders mirror the `format!` calls character for character
  (Rust's `Display` for `bool` prints `true` / `false`).
-/

/-- Base endpoint, `const API` in both revisions. -/
def API : String := "https://hypixel.cactive.network/api/v3"

/-- Rust `Display` for `bool`, used by `format!("{}", self.cache)`. -/
def boolDisplay : Bool → String
  | true => "true"
  | false => "false"

/-- `struct APIError` (lib.rs lines 106-111): a server-reported failure. -/
structure APIError where
  type : String
  code : Nat
  message : String
deriving DecidableEq, Repr

/-- `struct InternalError` (lib.rs lines 98-104): the normalized error shape. -/
structure InternalError where
  type : String
  code : Nat
  message : String
  internal : Bool
deriving DecidableEq, Repr

/-- `struct APIData<T>` (lib.rs lines 113-119): the response envelope. -/
structure APIData (T : Type) where
  success : Bool
  id : String
  data : Option T
  errors : Option (List APIError)

/-- `impl From<APIError> for InternalError` (lib.rs lines 121-130). -/
def InternalError.fromAPIError (e : APIError) : InternalError :=
  { type := e.type, code := e.code, message := e.message, internal := false }

/-- `impl From<reqwest::Error> for InternalError` (lib.rs lines 132-141):
the argument is the error's `to_string()` text. -/
def InternalError.fromTransportError (msg : String) : InternalError :=
  { type := "failed-api-request", code := 500, message := msg, internal := true }

/-- Outcome of decoding one response: the typed payload, a list of normalized
errors, or the panic the Rust `.unwrap()` raises on a contradictory envelope. -/
inductive DecodeResult (T : Type) where
  | ok (payload : T)
  | err (errors : List InternalError)
  | fatal
deriving Repr

/-- `async fn map_errors` (lib.rs lines 268-286). The argument is the result of
`request.json::<APIData<T>>()`: `Except.error` carries the parser error text. -/
def map_errors {T : Type} (parsed : Except String (APIData T)) : DecodeResult T :=
  match parsed with
  | .ok json =>
    if json.success then
      match json.data with
      | some d => .ok d
      | none => .fatal
    else
      match json.errors with
      | some es => .err (es.map InternalError.fromAPIError)
      | none => .fatal
  | .error e => .err [InternalError.fromTransportError e]

/-- The single transport interaction of one operation: `reqwest::get` either
fails with an error message, or delivers a body whose parse is an `Except`. -/
inductive Transport (T : Type) where
  | failure (msg : String)
  | response (body : Except String (APIData T))

/-- `async fn request_data` (lib.rs lines 255-265): a transport failure becomes
a singleton error list, otherwise the response goes to `map_errors`. -/
def request_data {T : Type} (t : Transport T) : DecodeResult T :=
  match t with
  | .failure msg => .err [InternalError.fromTransportError msg]
  | .response body => map_errors body

/-- `struct Client` (both revisions): an API key and a cache-preference flag. -/
structure Client where
  key : String
  cache : Bool

/-- `Client::new` (lib.rs lines 154-156, main.rs lines 152-157). -/
def Client.new (key : String) (cache : Bool) : Client :=
  { key := key, cache := cache }

/-- `Client::map_internal_error` (main.rs lines 159-168). -/
def MainRs.map_internal_error (msg : String) : List InternalError :=
  [{ type := "failed-api-request", code := 500, message := msg, internal := true }]

/-- `Client::map_external_error` (main.rs lines 170-177). -/
def MainRs.map_external_error (errors : List APIError) : List InternalError :=
  errors.map fun e =>
    { type := e.type, code := e.code, message := e.message, internal := false }

/-- URL of `Client::nickname_history` (lib.rs lines 169-178). -/
def LibRs.nicknameHistoryUrl (c : Client) (nickname : String) : String :=
  API ++ "/nickname-history?key=" ++ c.key ++ "&cache=" ++ boolDisplay c.cache
    ++ "&nickname=" ++ nickname

/-- URL of `Client::player_data` (lib.rs lines 191-197). -/
def LibRs.playerDataUrl (c : Client) (uuid : String) : String :=
  API ++ "/player-data?key=" ++ c.key ++ "&cache=" ++ boolDisplay c.cache
    ++ "&uuid=" ++ uuid

/-- URL of `Client::staff_tracker` (lib.rs lines 210-219). -/
def LibRs.staffTrackerUrl (c : Client) (filt : String) : String :=
  API ++ "/staff-tracker?key=" ++ c.key ++ "&cache=" ++ boolDisplay c.cache
    ++ "&filter=" ++ filt

/-- URL of `Client::punishment_data` (lib.rs lines 232-238): it targets the
`/staff-tracker` resource. -/
def LibRs.punishmentDataUrl (c : Client) (pid : String) : String :=
  API ++ "/staff-tracker?key=" ++ c.key ++ "&cache=" ++ boolDisplay c.cache
    ++ "&id=" ++ pid

/-- URL of `Client::key_data` (lib.rs lines 251-253): only the `key` argument
of the call is interpolated; the client's fields are not used. -/
def LibRs.keyDataUrl (_c : Client) (key : String) : String :=
  API ++ "/key?key=" ++ key

/-- URL of `Client::nickname_history` (main.rs lines 179-186). -/
def MainRs.nicknameHistoryUrl (c : Client) (nickname : String) : String :=
  API ++ "/nickname-history?key=" ++ c.key ++ "&cache=" ++ boolDisplay c.cache
    ++ "&nickname=" ++ nickname

/-- URL of `Client::player_data` (main.rs lines 199-217). -/
def MainRs.playerDataUrl (c : Client) (uuid : String) : String :=
  API ++ "/player-data?key=" ++ c.key ++ "&cache=" ++ boolDisplay c.cache
    ++ "&uuid=" ++ uuid

/-- URL of `Client::staff_tracker` (main.rs lines 219-237): this revision takes
no filter argument. -/
def MainRs.staffTrackerUrl (c : Client) : String :=
  API ++ "/staff-tracker?key=" ++ c.key ++ "&cache=" ++ boolDisplay c.cache

/-- URL of `Client::punishment_data` (main.rs lines 239-257): it targets the
`/staff-tracker` resource. -/
def MainRs.punishmentDataUrl (c : Client) (pid : String) : String :=
  API ++ "/staff-tracker?key=" ++ c.key ++ "&cache=" ++ boolDisplay c.cache
    ++ "&id=" ++ pid

/-- URL of `Client::key_data` (main.rs lines 259-277): this revision takes no
argument and interpolates the client's stored key; no cache parameter. -/
def MainRs.keyDataUrl (c : Client) : String :=
  API ++ "/key?key=" ++ c.key

/-- Substring search on character lists, used to state the spec's "the URL
contains the substring ..." properties decidably. -/
def hasSubList (needle : List Char) : List Char → Bool
  | [] => needle.isEmpty
  | c :: t => needle.isPrefixOf (c :: t) || hasSubList needle t

/-- String containment predicate for the spec's URL-substring properties. -/
def strContains (hay needle : String) : Bool :=
  hasSubList needle.toList hay.toList

/-- Number of occurrences of the character & in a string, used to state that an
unescaped & in a caller-supplied parameter alters the query structure. -/
def ampCount (s : String) : Nat :=
  s.toList.count '&'


/-- `struct NicknameHistory` (lib.rs lines 12-19). -/
structure NicknameHistory where
  uuid : String
  nickname : String
  active : Bool
  created_at : String
  voided_at : String
deriving DecidableEq, Repr

/-- `struct PunishmentData` (lib.rs lines 21-29): `executor` and `length` are
optional; `none` is the explicit absent marker. -/
structure PunishmentData where
  id : String
  punishment_type : String
  uuid : String
  executor : Option String
  reason : String
  length : Option Nat
deriving DecidableEq, Repr

/-- `struct StaffTracker` (lib.rs lines 91-96). -/
structure StaffTracker where
  uuid : String
  rank : String
  online : Option Bool
deriving DecidableEq, Repr

/-- `struct KeyEndpoints` (lib.rs lines 73-78). -/
structure KeyEndpoints where
  id : String
  version : Int
  status : Bool
deriving DecidableEq, Repr

/-- `struct KeyData` (lib.rs lines 80-89). -/
structure KeyData where
  key : String
  valid : Bool
  active : Bool
  created_at : Option String
  expires_at : Option String
  owner_cactiveconnections_id : Option String
  endpoints : List KeyEndpoints
deriving DecidableEq, Repr

/-- A JSON value, the input shape of the external parser collaborator. -/
inductive Json where
  | null
  | bool (b : Bool)
  | num (n : Nat)
  | str (s : String)
  | arr (xs : List Json)
  | obj (fields : List (String × Json))

/-- Field lookup on a JSON object; any other JSON value has no fields. -/
def Json.getField : Json → String → Option Json
  | .obj fields, k => fields.lookup k
  | _, _ => none

/-- Modelled from the spec: the derived deserializer for a JSON boolean. -/
def decodeBool : Json → Except String Bool
  | .bool b => .ok b
  | _ => .error "invalid type: expected a boolean"

/-- Modelled from the spec: the derived deserializer for a JSON string. -/
def decodeString : Json → Except String String
  | .str s => .ok s
  | _ => .error "invalid type: expected a string"

/-- Modelled from the spec: the derived deserializer for a JSON array. -/
def decodeList (dec : Json → Except String α) : Json → Except String (List α)
  | .arr xs => xs.mapM dec
  | _ => .error "invalid type: expected an array"

/-- Modelled from the spec: a required struct field; absence is a parse error. -/
def decodeReqField (dec : Json → Except String α) (j : Json) (k : String) :
    Except String α :=
  match j.getField k with
  | some v => dec v
  | none => .error ("missing field " ++ k)

/-- Modelled from the spec: an `Option` struct field; the spec's "optional
fields mapped to explicit absent markers when JSON null/omitted" - a missing
key or a JSON null both decode to `none`. -/
def decodeOptField (dec : Json → Except String α) : Option Json → Except String (Option α)
  | none => .ok none
  | some .null => .ok none
  | some v => (dec v).map some

/-- Modelled from the spec: the derived deserializer for `APIError`
(`type`, `code`, `message` all required; the derive itself is generated code
not present under src/). -/
def decodeAPIError (j : Json) : Except String APIError := do
  let t ← decodeReqField decodeString j "type"
  let c ← decodeReqField (fun v => match v with
    | .num n => .ok n
    | _ => .error "invalid type: expected a number") j "code"
  let m ← decodeReqField decodeString j "message"
  .ok { type := t, code := c, message := m }

/-- Modelled from the spec: the derived deserializer for the `APIData<T>`
envelope (generated code not present under src/): `success` and `id` are
required, `data` and `errors` are `Option` fields that map JSON null or
omission to `none`. -/
def decodeAPIData (decT : Json → Except String T) (j : Json) :
    Except String (APIData T) := do
  let ok ← decodeReqField decodeBool j "success"
  let ident ← decodeReqField decodeString j "id"
  let dat ← decodeOptField decT (j.getField "data")
  let errs ← decodeOptField (decodeList decodeAPIError) (j.getField "errors")
  .ok { success := ok, id := ident, data := dat, errors := errs }

/-- C1: for every decoded envelope with success=false and errors a list of
length N (in particular every non-empty one), the operation returns the error
variant with exactly N normalized entries, the pointwise image of the errors
list (so order is preserved), and the conversion sets internal=false and copies
type, code and message verbatim; main.rs's map_external_error agrees. -/
theorem C1_failing_envelope_errors (T : Type) (ident : String) (d : Option T)
    (es : List APIError) :
    map_errors (Except.ok { success := false, id := ident, data := d, errors := some es }) =
      DecodeResult.err (es.map InternalError.fromAPIError) ∧
    (es.map InternalError.fromAPIError).length = es.length ∧
    (∀ a : APIError,
      (InternalError.fromAPIError a).internal = false ∧
      (InternalError.fromAPIError a).type = a.type ∧
      (InternalError.fromAPIError a).code = a.code ∧
      (InternalError.fromAPIError a).message = a.message) ∧
    MainRs.map_external_error es = es.map InternalError.fromAPIError :=
  ⟨rfl, List.length_map es InternalError.fromAPIError,
    fun _ => ⟨rfl, rfl, rfl, rfl⟩, rfl⟩

/-- C2: an envelope parsed with success=true but data absent makes the decoder
hit the `.unwrap()` panic (modelled as `DecodeResult.fatal`, a caller-visible
crash, not a returned error), and likewise success=false with errors absent. -/
theorem C2_contradictory_envelope_fatal (T : Type) (ident : String)
    (errs : Option (List APIError)) (dat : Option T) :
    map_errors (T := T)
      (Except.ok { success := true, id := ident, data := none, errors := errs }) =
      DecodeResult.fatal ∧
    map_errors
      (Except.ok { success := false, id := ident, data := dat, errors := none }) =
      DecodeResult.fatal :=
  ⟨rfl, rfl⟩

/-- C3: a transport failure, and a body that fails to parse as the envelope,
each produce exactly one normalized error with internal=true, code=500,
type failed-api-request, and the underlying error text as message; main.rs's
map_internal_error produces the same singleton. -/
theorem C3_internal_failures_single_error (T : Type) (msg : String) :
    request_data (T := T) (Transport.failure msg) =
      DecodeResult.err
        [{ type := "failed-api-request", code := 500, message := msg, internal := true }] ∧
    request_data (T := T) (Transport.response (Except.error msg)) =
      DecodeResult.err
        [{ type := "failed-api-request", code := 500, message := msg, internal := true }] ∧
    MainRs.map_internal_error msg =
      [{ type := "failed-api-request", code := 500, message := msg, internal := true }] ∧
    ([{ type := "failed-api-request", code := 500, message := msg, internal := true }] :
      List InternalError).length = 1 :=
  ⟨rfl, rfl, rfl, rfl⟩

/-- C4: an envelope with success=true and data present decodes to exactly the
data field value; and in the envelope deserializer an optional field that is
JSON null or omitted is mapped to the explicit absent marker `none`, shown both
for `decodeOptField` in general and on a full envelope whose data and errors
keys are omitted. -/
theorem C4_success_payload_identity (T : Type) (ident : String) (d : T)
    (errs : Option (List APIError)) :
    map_errors
      (Except.ok { success := true, id := ident, data := some d, errors := errs }) =
      DecodeResult.ok d ∧
    (∀ dec : Json → Except String T,
      decodeOptField dec none = Except.ok none ∧
      decodeOptField dec (some Json.null) = Except.ok none) ∧
    (∀ dec : Json → Except String T,
      decodeAPIData dec (Json.obj [("success", Json.bool true), ("id", Json.str "x")]) =
        Except.ok { success := true, id := "x", data := none, errors := none }) :=
  ⟨rfl, fun _ => ⟨rfl, rfl⟩, fun _ => rfl⟩

/-- C5 counterexample: the claim that every error-variant result is non-empty
is false at a concrete input: an envelope with success=false and an empty
errors list makes the operation return the error variant with the empty list. -/
theorem C5_counterexample_empty_error_list :
    request_data (T := Nat)
      (Transport.response
        (Except.ok { success := false, id := "x", data := none, errors := some [] })) =
      DecodeResult.err [] :=
  rfl

/-- C5 amended: transport and parse failures yield non-empty (singleton) error
lists, while a decoded envelope with success=false and errors present yields an
error list of exactly the errors list's length - hence non-empty exactly when
the server-reported errors list is non-empty, and empty when it is empty. -/
theorem C5_amended_error_list_sizes (T : Type) (msg ident : String) (d : Option T)
    (es : List APIError) :
    (request_data (T := T) (Transport.failure msg) =
        DecodeResult.err [InternalError.fromTransportError msg] ∧
      [InternalError.fromTransportError msg] ≠ []) ∧
    (request_data (T := T) (Transport.response (Except.error msg)) =
        DecodeResult.err [InternalError.fromTransportError msg] ∧
      [InternalError.fromTransportError msg] ≠ []) ∧
    (request_data
        (Transport.response
          (Except.ok { success := false, id := ident, data := d, errors := some es })) =
        DecodeResult.err (es.map InternalError.fromAPIError) ∧
      (es.map InternalError.fromAPIError).length = es.length) :=
  ⟨⟨rfl, List.cons_ne_nil _ _⟩, ⟨rfl, List.cons_ne_nil _ _⟩,
    ⟨rfl, List.length_map es InternalError.fromAPIError⟩⟩

/-- C6: a client with key K and cache false calling the nickname-history
operation with angry_and_free builds exactly the URL whose query string is
key=K&cache=false&nickname=angry_and_free, in that parameter order, in both
revisions; in particular the URL contains that substring. -/
theorem C6_roundtrip_nickname_url :
    LibRs.nicknameHistoryUrl (Client.new "K" false) "angry_and_free" =
      "https://hypixel.cactive.network/api/v3/nickname-history?key=K&cache=false&nickname=angry_and_free" ∧
    MainRs.nicknameHistoryUrl (Client.new "K" false) "angry_and_free" =
      "https://hypixel.cactive.network/api/v3/nickname-history?key=K&cache=false&nickname=angry_and_free" ∧
    strContains (LibRs.nicknameHistoryUrl (Client.new "K" false) "angry_and_free")
      "key=K&cache=false&nickname=angry_and_free" = true := by
  refine ⟨by decide, by decide, by decide⟩

/-- C7 counterexample: the claim that every operation's query string embeds the
client's key and cache flag fails at the key-info operation: a client with key
mykey and cache true calling key_data with argument other builds a URL with no
cache parameter at all, and (in the generic revision) without the client's
stored key either; the duplicated revision also omits the cache parameter. -/
theorem C7_counterexample_key_data_url :
    LibRs.keyDataUrl (Client.new "mykey" true) "other" =
      "https://hypixel.cactive.network/api/v3/key?key=other" ∧
    strContains (LibRs.keyDataUrl (Client.new "mykey" true) "other") "cache" = false ∧
    strContains (LibRs.keyDataUrl (Client.new "mykey" true) "other") "mykey" = false ∧
    MainRs.keyDataUrl (Client.new "mykey" true) =
      "https://hypixel.cactive.network/api/v3/key?key=mykey" ∧
    strContains (MainRs.keyDataUrl (Client.new "mykey" true)) "cache" = false := by
  refine ⟨by decide, by decide, by decide, by decide, by decide⟩

/-- C7 amended: every operation except key-info builds its query string from
the client's key, the client's cache flag and the operation-specific
parameters, in that order; the key-info operation's query string holds only a
key parameter - the call's key argument in the generic revision, the client's
stored key in the duplicated revision - and no cache parameter. -/
theorem C7_amended_query_strings (c : Client)
    (nickname uuid filt pid karg : String) :
    LibRs.nicknameHistoryUrl c nickname =
      API ++ "/nickname-history?key=" ++ c.key ++ "&cache=" ++ boolDisplay c.cache
        ++ "&nickname=" ++ nickname ∧
    LibRs.playerDataUrl c uuid =
      API ++ "/player-data?key=" ++ c.key ++ "&cache=" ++ boolDisplay c.cache
        ++ "&uuid=" ++ uuid ∧
    LibRs.staffTrackerUrl c filt =
      API ++ "/staff-tracker?key=" ++ c.key ++ "&cache=" ++ boolDisplay c.cache
        ++ "&filter=" ++ filt ∧
    LibRs.punishmentDataUrl c pid =
      API ++ "/staff-tracker?key=" ++ c.key ++ "&cache=" ++ boolDisplay c.cache
        ++ "&id=" ++ pid ∧
    LibRs.keyDataUrl c karg = API ++ "/key?key=" ++ karg ∧
    MainRs.nicknameHistoryUrl c nickname =
      API ++ "/nickname-history?key=" ++ c.key ++ "&cache=" ++ boolDisplay c.cache
        ++ "&nickname=" ++ nickname ∧
    MainRs.playerDataUrl c uuid =
      API ++ "/player-data?key=" ++ c.key ++ "&cache=" ++ boolDisplay c.cache
        ++ "&uuid=" ++ uuid ∧
    MainRs.staffTrackerUrl c =
      API ++ "/staff-tracker?key=" ++ c.key ++ "&cache=" ++ boolDisplay c.cache ∧
    MainRs.punishmentDataUrl c pid =
      API ++ "/staff-tracker?key=" ++ c.key ++ "&cache=" ++ boolDisplay c.cache
        ++ "&id=" ++ pid ∧
    MainRs.keyDataUrl c = API ++ "/key?key=" ++ c.key :=
  ⟨rfl, rfl, rfl, rfl, rfl, rfl, rfl, rfl, rfl, rfl⟩

/-- C8: in both revisions the punishment-lookup operation builds its request
against the staff-tracker resource with query parameters key, cache and id;
concretely the built URL contains the path segment staff-tracker and no
punishment-specific segment. -/
theorem C8_punishment_uses_staff_tracker_path (c : Client) (pid : String) :
    LibRs.punishmentDataUrl c pid =
      API ++ "/staff-tracker?key=" ++ c.key ++ "&cache=" ++ boolDisplay c.cache
        ++ "&id=" ++ pid ∧
    MainRs.punishmentDataUrl c pid =
      API ++ "/staff-tracker?key=" ++ c.key ++ "&cache=" ++ boolDisplay c.cache
        ++ "&id=" ++ pid ∧
    strContains (LibRs.punishmentDataUrl (Client.new "K" false) "C256D602")
      "/staff-tracker?" = true ∧
    strContains (LibRs.punishmentDataUrl (Client.new "K" false) "C256D602")
      "punishment" = false :=
  ⟨rfl, rfl, by decide, by decide⟩

/-- C9: in the generic-decoder revision the key-info URL depends only on the
key argument of the call: any two clients - whatever their stored keys and
cache flags - build identical URLs for the same key argument. -/
theorem C9_key_data_url_client_independent (c₁ c₂ : Client) (k : String) :
    LibRs.keyDataUrl c₁ k = LibRs.keyDataUrl c₂ k :=
  rfl

/-- C10: caller-supplied parameters are appended to the URL verbatim, with no
percent-encoding: each builder's result is literally a fixed head concatenated
with the raw argument; concretely a nickname containing & makes the built URL
contain that & unescaped, raising the number of query separators from 2 to 3
and injecting a second cache parameter. -/
theorem C10_parameters_interpolated_verbatim (c : Client)
    (nickname uuid filt pid karg : String) :
    LibRs.nicknameHistoryUrl c nickname =
      (API ++ "/nickname-history?key=" ++ c.key ++ "&cache=" ++ boolDisplay c.cache
        ++ "&nickname=") ++ nickname ∧
    LibRs.playerDataUrl c uuid =
      (API ++ "/player-data?key=" ++ c.key ++ "&cache=" ++ boolDisplay c.cache
        ++ "&uuid=") ++ uuid ∧
    LibRs.staffTrackerUrl c filt =
      (API ++ "/staff-tracker?key=" ++ c.key ++ "&cache=" ++ boolDisplay c.cache
        ++ "&filter=") ++ filt ∧
    LibRs.punishmentDataUrl c pid =
      (API ++ "/staff-tracker?key=" ++ c.key ++ "&cache=" ++ boolDisplay c.cache
        ++ "&id=") ++ pid ∧
    LibRs.keyDataUrl c karg = (API ++ "/key?key=") ++ karg ∧
    MainRs.nicknameHistoryUrl c nickname =
      (API ++ "/nickname-history?key=" ++ c.key ++ "&cache=" ++ boolDisplay c.cache
        ++ "&nickname=") ++ nickname ∧
    ampCount (LibRs.nicknameHistoryUrl (Client.new "K" false) "angry_and_free") = 2 ∧
    ampCount (LibRs.nicknameHistoryUrl (Client.new "K" false) "a&cache=true") = 3 ∧
    strContains (LibRs.nicknameHistoryUrl (Client.new "K" false) "a&cache=true")
      "&cache=true" = true :=
  ⟨rfl, rfl, rfl, rfl, rfl, rfl, by decide, by decide, by decide⟩
